import Mathlib

/-
  Verification development for the DBMonitor repository.

  Shallow embedding of the Telemetry Acquisition and Classification Engine:
  the classifier library of src/utils/pdf_generator.py, the host probe of
  src/reports/cpu_ram.py (localhost decision, remote SSH metrics, PostgreSQL
  server metrics), the six DB probes, and the report assembly of src/main.py.

  Python machine floats are modelled by exact rationals plus explicit nan and
  infinity values; Python round(x, 2) is modelled by decimal rounding half to
  even, which agrees with CPython on every value exercised below (all of them
  exactly representable in binary floating point).
-/

namespace DBMonitor

/-- Python float values: nan, the two infinities, or a finite value modelled
exactly as a rational number. -/
inductive PyFloat where
  | nan
  | inf
  | ninf
  | val (q : ℚ)
deriving DecidableEq, Repr

/-- Python comparison a <= b on floats: every comparison involving nan is
false; the infinities compare below and above every finite value. -/
def PyFloat.le : PyFloat → PyFloat → Bool
  | .nan, _ => false
  | _, .nan => false
  | .ninf, _ => true
  | _, .ninf => false
  | _, .inf => true
  | .inf, _ => false
  | .val a, .val b => decide (a ≤ b)

/-- Python comparison a >= b on floats. -/
def PyFloat.ge (a b : PyFloat) : Bool := PyFloat.le b a

/-- Python strict comparison a < b on floats (false whenever nan is involved). -/
def PyFloat.lt : PyFloat → PyFloat → Bool
  | .nan, _ => false
  | _, .nan => false
  | .ninf, .ninf => false
  | .ninf, _ => true
  | _, .ninf => false
  | .inf, _ => false
  | _, .inf => true
  | .val a, .val b => decide (a < b)

/-- Python equality a == b on floats (nan is not equal to anything). -/
def PyFloat.eq : PyFloat → PyFloat → Bool
  | .nan, _ => false
  | _, .nan => false
  | .inf, .inf => true
  | .ninf, .ninf => true
  | .val a, .val b => decide (a = b)
  | _, _ => false

/-- Python values as they reach the classifier functions: integers, floats,
strings, or None.  This covers every input shape the report model can hold. -/
inductive PyVal where
  | int (n : ℤ)
  | float (f : PyFloat)
  | str (s : String)
  | noneV
deriving DecidableEq, Repr

/-- Python truthiness: zero numbers, the empty string and None are falsy;
nan and the infinities are truthy. -/
def pyTruthy : PyVal → Bool
  | .int n => decide (n ≠ 0)
  | .float .nan => true
  | .float .inf => true
  | .float .ninf => true
  | .float (.val q) => decide (q ≠ 0)
  | .str s => decide (s ≠ "")
  | .noneV => false

/-- Numeric value of a list of decimal digit characters. -/
def digitsToNat (ds : List Char) : ℕ :=
  ds.foldl (fun a c => 10 * a + (c.toNat - 48)) 0

/-- Python str.strip() on a character list: drop whitespace at both ends.
(The core String.trim is not used because its position based implementation
does not reduce in the kernel.) -/
def charTrim (cs : List Char) : List Char :=
  (((cs.dropWhile (·.isWhitespace)).reverse.dropWhile (·.isWhitespace)).reverse)

/-- Python str.split() with no argument on a character list: split on runs
of whitespace and drop empty pieces. -/
def splitWsAux : List Char → List Char → List (List Char)
  | [], acc => if acc = [] then [] else [acc.reverse]
  | c :: rest, acc =>
      if c.isWhitespace then
        if acc = [] then splitWsAux rest []
        else acc.reverse :: splitWsAux rest []
      else splitWsAux rest (c :: acc)

/-- Python str.split() with no argument. -/
def splitWs (cs : List Char) : List (List Char) := splitWsAux cs []

/-- Lower casing character by character, the effect of Python str.lower()
on ascii input. -/
def strToLower (s : String) : String := String.mk (s.data.map Char.toLower)

/-- Decimal literal body of a Python float string: digits with an optional
fractional part, at least one digit overall, nothing trailing.  Exponent
forms are not modelled (no input below uses them). -/
def pyParseFloatCore (cs : List Char) : Option ℚ :=
  let p1 := cs.span (·.isDigit)
  match p1.2 with
  | [] => if p1.1 = [] then none else some (digitsToNat p1.1)
  | '.' :: r2 =>
      let p2 := r2.span (·.isDigit)
      if p2.2 = [] then
        if p1.1 = [] ∧ p2.1 = [] then none
        else some ((digitsToNat p1.1 : ℚ) + (digitsToNat p2.1 : ℚ) / (10 ^ p2.1.length))
      else none
  | _ => none

/-- Python float(s) on a string: strip whitespace, optional sign, then a
decimal literal or one of the nan and inf spellings. -/
def pyParseFloat (s : String) : Option PyFloat :=
  let cs := charTrim s.toList
  let sb : Bool × List Char :=
    match cs with
    | '-' :: rest => (true, rest)
    | '+' :: rest => (false, rest)
    | rest => (false, rest)
  let lower := sb.2.map Char.toLower
  if lower = ['n', 'a', 'n'] then some .nan
  else if lower = ['i', 'n', 'f'] ∨ lower = "infinity".toList then
    some (if sb.1 then .ninf else .inf)
  else
    match pyParseFloatCore sb.2 with
    | some q => some (.val (if sb.1 then -q else q))
    | none => none

/-- Python int(s) on a string: strip whitespace, optional sign, digits only
(so int of the string 3.5 raises, unlike float). -/
def pyParseInt (s : String) : Option ℤ :=
  let cs := charTrim s.toList
  let sb : Bool × List Char :=
    match cs with
    | '-' :: rest => (true, rest)
    | '+' :: rest => (false, rest)
    | rest => (false, rest)
  if sb.2 ≠ [] ∧ sb.2.all (·.isDigit) then
    some (if sb.1 then -(digitsToNat sb.2 : ℤ) else (digitsToNat sb.2 : ℤ))
  else none

/-- Truncation toward zero, the behaviour of Python int() on a finite float. -/
def pyTrunc (q : ℚ) : ℤ := if 0 ≤ q then ⌊q⌋ else ⌈q⌉

/-- Python float(value) on an arbitrary value; none models a raised error
(TypeError on None, ValueError on a non-numeric string). -/
def pyFloatCoerce : PyVal → Option PyFloat
  | .int n => some (.val n)
  | .float f => some f
  | .str s => pyParseFloat s
  | .noneV => none

/-- Python int(value) on an arbitrary value; none models a raised error
(nan and the infinities raise, as do non-integer strings and None). -/
def pyIntCoerce : PyVal → Option ℤ
  | .int n => some n
  | .float (.val q) => some (pyTrunc q)
  | .float _ => none
  | .str s => pyParseInt s
  | .noneV => none

/-- Rounding half to even of a rational to an integer, the rule CPython
applies to the exact binary value inside round(). -/
def roundHalfEven (q : ℚ) : ℤ :=
  let f := ⌊q⌋
  let r := q - f
  if r < 1 / 2 then f
  else if 1 / 2 < r then f + 1
  else if f % 2 = 0 then f else f + 1

/-- Python round(x, 2) modelled on exact rationals: round half to even at two
decimal places. -/
def round2 (q : ℚ) : ℚ := (roundHalfEven (q * 100) : ℚ) / 100

/-- Classifier of src/utils/pdf_generator.py, higher is worse: coerce the
value with float() falling back to 0.0 on any error, then compare against the
critical and warning thresholds in that order. -/
def _get_status_indicator (value : PyVal) (warning_threshold critical_threshold : PyFloat) : String :=
  let v := (pyFloatCoerce value).getD (.val 0)
  if v.ge critical_threshold then "CRITICAL"
  else if v.ge warning_threshold then "WARNING"
  else "GOOD"

/-- Classifier of src/utils/pdf_generator.py for metrics where higher is
better (cache hit ratio): below or at crit is CRITICAL, below or at warn is
WARNING, otherwise EXCELLENT. -/
def _status_higher_is_better (value : PyVal) (warn crit : PyFloat) : String :=
  let v := (pyFloatCoerce value).getD (.val 0)
  if v.le crit then "CRITICAL"
  else if v.le warn then "WARNING"
  else "EXCELLENT"

/-- Classifier of src/utils/pdf_generator.py for counts where higher is worse
(slow query count), same shape as the indicator classifier. -/
def _status_count (count_value : PyVal) (warn crit : PyFloat) : String :=
  let v := (pyFloatCoerce count_value).getD (.val 0)
  if v.ge crit then "CRITICAL"
  else if v.ge warn then "WARNING"
  else "GOOD"

/-- Coercion applied to each counter in the index status classifier: the
Python expression int(x or 0) wrapped in try, falling back to 0 on error. -/
def coerceCounter (v : PyVal) : ℤ :=
  (pyIntCoerce (if pyTruthy v then v else .int 0)).getD 0

/-- Index usage classifier of src/utils/pdf_generator.py.  Each counter is
coerced with int(x or 0) falling back to 0; the efficiency test divides
tuples fetched by max(tuples read, 1).  The Python float division and the
literal 0.1 are modelled by exact rational arithmetic. -/
def _get_index_status (scans tuples_read tuples_fetched : PyVal) : String :=
  let scans_val := coerceCounter scans
  let read_val := coerceCounter tuples_read
  let fetched_val := coerceCounter tuples_fetched
  if scans_val = 0 then "UNUSED"
  else if scans_val < 10 then "LOW USE"
  else if (fetched_val : ℚ) / ((max read_val 1 : ℤ) : ℚ) < 1 / 10 then "INEFFICIENT"
  else "ACTIVE"

/-- Python max(r, 1.0) on floats: 1 when r compares below 1, otherwise r
(so nan stays nan). -/
def pyMaxOne (r : PyFloat) : PyFloat := if r.lt (.val 1) then .val 1 else r

/-- Python float division on our float model; division of a finite value by
zero is collapsed to nan here (the real ZeroDivisionError path is unreachable
after max(r, 1) on coerced inputs). -/
def pyDiv : PyFloat → PyFloat → PyFloat
  | .nan, _ => .nan
  | _, .nan => .nan
  | .inf, .inf => .nan
  | .inf, .ninf => .nan
  | .ninf, .inf => .nan
  | .ninf, .ninf => .nan
  | .inf, .val b => if b < 0 then .ninf else .inf
  | .ninf, .val b => if b < 0 then .inf else .ninf
  | .val _, .inf => .val 0
  | .val _, .ninf => .val 0
  | .val a, .val b => if b = 0 then .nan else .val (a / b)

/-- Modelled from the spec: the index status classifier as the spec words it,
with every input coerced to float with a safe fallback of 0.0 on parse
failure, then the same threshold chain.  This definition exists only to be
compared with the coded classifier, which coerces with int instead. -/
def indexStatusSpecFloatCoercion (scans tuples_read tuples_fetched : PyVal) : String :=
  let s := (pyFloatCoerce scans).getD (.val 0)
  let r := (pyFloatCoerce tuples_read).getD (.val 0)
  let f := (pyFloatCoerce tuples_fetched).getD (.val 0)
  if s.eq (.val 0) then "UNUSED"
  else if s.lt (.val 10) then "LOW USE"
  else if (pyDiv f (pyMaxOne r)).lt (.val (1 / 10)) then "INEFFICIENT"
  else "ACTIVE"

/-- Localhost literal list of src/reports/cpu_ram.py. -/
def localhost_hosts : List String := ["localhost", "127.0.0.1", "0.0.0.1", "::1"]

/-- Localhost decision of src/reports/cpu_ram.py: plain Python membership of
the configured host string in the literal list, with no case folding.  The
reading of the yaml config file is abstracted to the host value it yields. -/
def _is_localhost_connection (host : String) : Bool :=
  decide (host ∈ localhost_hosts)

/-- Localhost decision as the spec words it: the host compared case
insensitively against the literal set.  Only used to compare with the coded
decision. -/
def isLocalhostSpecCaseInsensitive (host : String) : Bool :=
  decide (strToLower host ∈ localhost_hosts)

/-- Environment of one call of the remote host probe: the outcome of
ssh.connect (covering both connection and authentication), the stdout of the
piped top command, and the stdout lines of free -m. -/
structure RemoteEnv where
  connect_ok : Bool
  cpu_stdout : String
  mem_stdout_lines : List String
deriving DecidableEq, Repr

/-- System metrics record returned by the host probe of
src/reports/cpu_ram.py. -/
structure SysMetrics where
  system_cpu_percent : ℚ
  system_ram_percent : ℚ
  system_ram_total_gb : ℚ
  system_ram_used_gb : ℚ
  system_ram_available_gb : ℚ
deriving DecidableEq, Repr

/-- Zero metrics record, the fallback of the remote host probe. -/
def zeroSysMetrics : SysMetrics := ⟨0, 0, 0, 0, 0⟩

/-- State of the SSH session when the probe returns: whether connect
succeeded (a session was opened) and whether close was called. -/
structure SshTrace where
  opened : Bool
  closed : Bool
deriving DecidableEq, Repr

/-- Attempt to match the idle regex (digits, a dot, digits, optional
whitespace, then the letters id) at the head of the character list, returning
the capture as integer part value, fraction part value and fraction length.
Greedy digit runs need no backtracking here because a digit matches neither
the dot nor the id literal. -/
def matchIdleAt (cs : List Char) : Option (ℕ × ℕ × ℕ) :=
  let p1 := cs.span (·.isDigit)
  if p1.1 = [] then none
  else
    match p1.2 with
    | '.' :: r2 =>
        let p2 := r2.span (·.isDigit)
        if p2.1 = [] then none
        else
          match p2.2.dropWhile (·.isWhitespace) with
          | 'i' :: 'd' :: _ =>
              some (digitsToNat p1.1, digitsToNat p2.1, p2.1.length)
          | _ => none
    | _ => none

/-- Left to right scan of re.search for the idle regex over the cpu line. -/
def searchIdle : List Char → Option (ℕ × ℕ × ℕ)
  | [] => none
  | c :: rest =>
      match matchIdleAt (c :: rest) with
      | some q => some q
      | none => searchIdle rest

/-- Numeric value of a captured idle group, the Python float() of the
matched text. -/
def idleValue (d : ℕ × ℕ × ℕ) : ℚ :=
  (d.1 : ℚ) + (d.2.1 : ℚ) / (10 ^ d.2.2)

/-- Failure modes of the body of the remote host probe, each one a Python
exception site: ssh.connect raising, mem_lines[1] out of range, int() or
tuple unpacking failing on the memory fields, and used/total dividing by
zero. -/
inductive RemoteFailure where
  | connectError
  | indexError
  | valueError
  | zeroDivisionError
deriving DecidableEq, Repr

/-- Discrete stage of the body of _get_remote_system_metrics in
src/reports/cpu_ram.py: connect, match the idle regex against the cpu line
(a miss yields none and raises nothing), index the second free -m line,
split it and parse fields 1 to 3 with int() (tuple unpacking of fewer than
three values raises), and flag the division by a zero total.  A thrown
value models a raised Python exception; on success the parsed discrete data
is handed to the arithmetic stage below. -/
def remoteParse (env : RemoteEnv) : Except RemoteFailure (Option (ℕ × ℕ × ℕ) × ℤ × ℤ × ℤ) := do
  if ¬ env.connect_ok then throw .connectError
  let cpu := searchIdle env.cpu_stdout.toList
  let second ←
    match env.mem_stdout_lines.get? 1 with
    | some l => (pure l : Except RemoteFailure String)
    | none => throw .indexError
  let nums := ((splitWs second.toList).drop 1).take 3
  let vals ← nums.mapM fun cs =>
    match pyParseInt (String.mk cs) with
    | some n => (pure n : Except RemoteFailure ℤ)
    | none => throw .valueError
  match vals with
  | [total_mb, used_mb, free_mb] =>
      if total_mb = 0 then throw .zeroDivisionError
      pure (cpu, total_mb, used_mb, free_mb)
  | _ => throw .valueError

/-- Body of _get_remote_system_metrics in src/reports/cpu_ram.py, the code
inside the try block after config load: the discrete parse above followed by
the float arithmetic, cpu_pct as round(100 - idle, 2) with 0.0 on a regex
miss, ram_pct as round(used/total*100, 2), and the MiB fields divided by
1024 and rounded. -/
def remoteBody (env : RemoteEnv) : Except RemoteFailure SysMetrics :=
  match remoteParse env with
  | .error e => .error e
  | .ok (cpu, total_mb, used_mb, free_mb) =>
      .ok
        { system_cpu_percent :=
            match cpu with
            | some d => round2 (100 - idleValue d)
            | none => 0
          system_ram_percent := round2 ((used_mb : ℚ) / (total_mb : ℚ) * 100)
          system_ram_total_gb := round2 ((total_mb : ℚ) / 1024)
          system_ram_used_gb := round2 ((used_mb : ℚ) / 1024)
          system_ram_available_gb := round2 ((free_mb : ℚ) / 1024) }

/-- Remote host probe of src/reports/cpu_ram.py: run the body, catching every
exception; on failure print one warning and return the zero record.  The
result carries the metrics, the number of warnings printed, and the SSH
session trace.  ssh.close() is called only on the success path, right before
the return, so closed is false on every error path. -/
def _get_remote_system_metrics (env : RemoteEnv) : SysMetrics × ℕ × SshTrace :=
  match remoteBody env with
  | .ok m => (m, 0, ⟨env.connect_ok, true⟩)
  | .error _ => (zeroSysMetrics, 1, ⟨env.connect_ok, false⟩)

/-- Failure of a database session: unreachable host or authentication on one
side, a failing SQL statement on the other.  psycopg2 raises either across
the probe call. -/
inductive DbError where
  | connectionError
  | queryError
deriving DecidableEq, Repr

/-- Result rows of a fetchall, kept abstract: the probes pass them through
unchanged, so their content never matters to the embedded control flow. -/
abbrev Row := List String

/-- Database session behaviour for one run: what executing each SQL text
returns.  Each probe opens its own short lived session through
get_connection; with a deterministic database snapshot the outcome is a
function of the statement. -/
abbrev Db := String → Except DbError (List Row)

/-- Whether a database outcome is a success (no exception raised). -/
def isOkE {α : Type} (x : Except DbError α) : Bool :=
  match x with
  | .ok _ => true
  | .error _ => false

/-- SQL text of src/queries/long_queries.py with the default threshold 600
and limit 10 interpolated, whitespace normalised to single spaces. -/
def longQueriesSQL : String :=
  "SELECT query, total_exec_time, mean_exec_time, calls, CASE WHEN total_exec_time >= 60000 THEN ROUND((total_exec_time/60000)::numeric, 2) || \x27m\x27 WHEN total_exec_time >= 1000 THEN ROUND((total_exec_time/1000)::numeric, 2) || \x27s\x27 ELSE ROUND(total_exec_time::numeric, 2) || \x27ms\x27 END as total_time_formatted, CASE WHEN mean_exec_time >= 60000 THEN ROUND((mean_exec_time/60000)::numeric, 2) || \x27m\x27 WHEN mean_exec_time >= 1000 THEN ROUND((mean_exec_time/1000)::numeric, 2) || \x27s\x27 ELSE ROUND(mean_exec_time::numeric, 2) || \x27ms\x27 END as mean_time_formatted FROM pg_stat_statements WHERE mean_exec_time > 600 ORDER BY mean_exec_time DESC LIMIT 10;"

/-- SQL text of src/queries/frequent_queries.py with the default limit 10
interpolated. -/
def frequentQueriesSQL : String :=
  "SELECT query, calls, total_exec_time, CASE WHEN total_exec_time >= 60000 THEN ROUND((total_exec_time/60000)::numeric, 2) || \x27m\x27 WHEN total_exec_time >= 1000 THEN ROUND((total_exec_time/1000)::numeric, 2) || \x27s\x27 ELSE ROUND(total_exec_time::numeric, 2) || \x27ms\x27 END as total_time_formatted, CASE WHEN calls > 0 AND (total_exec_time/calls) >= 60000 THEN ROUND(((total_exec_time/calls)/60000)::numeric, 2) || \x27m\x27 WHEN calls > 0 AND (total_exec_time/calls) >= 1000 THEN ROUND(((total_exec_time/calls)/1000)::numeric, 2) || \x27s\x27 WHEN calls > 0 THEN ROUND((total_exec_time/calls)::numeric, 2) || \x27ms\x27 ELSE \x270ms\x27 END as avg_time_per_call FROM pg_stat_statements ORDER BY calls DESC LIMIT 10;"

/-- SQL text of get_total_cache_hit_ratio in src/reports/cache_hit.py. -/
def totalCacheHitRatioSQL : String :=
  "SELECT sum(blks_hit) AS hits, sum(blks_read) AS reads, (sum(blks_hit) / nullif(sum(blks_hit) + sum(blks_read), 0)) as ratio FROM pg_stat_database;"

/-- SQL text of get_per_table_cache_hit_ratio in src/reports/cache_hit.py. -/
def perTableCacheHitRatioSQL : String :=
  "SELECT schemaname, relname as tablename, heap_blks_hit, heap_blks_read, CASE WHEN (heap_blks_hit + heap_blks_read) > 0 THEN ROUND((heap_blks_hit::numeric / (heap_blks_hit + heap_blks_read)) * 100, 2) ELSE 0 END as hit_ratio_percent FROM pg_statio_user_tables WHERE (heap_blks_hit + heap_blks_read) > 0 ORDER BY hit_ratio_percent ASC LIMIT 20;"

/-- SQL text of get_index_heap_ratio in src/reports/cache_hit.py. -/
def indexHeapRatioSQL : String :=
  "SELECT schemaname, relname as tablename, heap_blks_hit + heap_blks_read as heap_blocks, idx_blks_hit + idx_blks_read as index_blocks, CASE WHEN (heap_blks_hit + heap_blks_read + idx_blks_hit + idx_blks_read) > 0 THEN ROUND(((idx_blks_hit + idx_blks_read)::numeric / (heap_blks_hit + heap_blks_read + idx_blks_hit + idx_blks_read)) * 100, 2) ELSE 0 END as index_heap_ratio_percent FROM pg_statio_user_tables WHERE (heap_blks_hit + heap_blks_read) > 0 ORDER BY index_heap_ratio_percent DESC LIMIT 20;"

/-- SQL text of get_database_storage in src/reports/storage_usage.py. -/
def databaseStorageSQL : String :=
  "SELECT datname, pg_size_pretty(pg_database_size(datname)) AS size_pretty, pg_database_size(datname) AS size_bytes FROM pg_database WHERE datistemplate = false ORDER BY pg_database_size(datname) DESC;"

/-- SQL text of get_table_storage in src/reports/storage_usage.py. -/
def tableStorageSQL : String :=
  "SELECT t.schemaname, t.tablename, pg_size_pretty(pg_total_relation_size(t.schemaname||\x27.\x27||t.tablename)) AS total_size_pretty, pg_size_pretty(pg_relation_size(t.schemaname||\x27.\x27||t.tablename)) AS table_size_pretty, pg_size_pretty(pg_total_relation_size(t.schemaname||\x27.\x27||t.tablename) - pg_relation_size(t.schemaname||\x27.\x27||t.tablename)) AS index_size_pretty, pg_total_relation_size(t.schemaname||\x27.\x27||t.tablename) AS total_size_bytes, pg_relation_size(t.schemaname||\x27.\x27||t.tablename) AS table_size_bytes, COALESCE(NULLIF(s.n_live_tup, 0), NULLIF(c.reltuples::bigint, 0), 0) AS row_count FROM pg_tables t LEFT JOIN pg_stat_all_tables s ON t.schemaname = s.schemaname AND t.tablename = s.relname LEFT JOIN pg_namespace n ON n.nspname = t.schemaname LEFT JOIN pg_class c ON c.relname = t.tablename AND c.relnamespace = n.oid AND c.relkind IN (\x27r\x27,\x27p\x27,\x27m\x27,\x27t\x27) WHERE t.schemaname NOT IN (\x27information_schema\x27, \x27pg_catalog\x27) ORDER BY pg_total_relation_size(t.schemaname||\x27.\x27||t.tablename) DESC LIMIT 50;"

/-- SQL text of get_index_storage in src/reports/storage_usage.py. -/
def indexStorageSQL : String :=
  "SELECT schemaname, indexname, tablename, pg_size_pretty(pg_relation_size(schemaname||\x27.\x27||indexname)) AS size_pretty, pg_relation_size(schemaname||\x27.\x27||indexname) AS size_bytes FROM pg_indexes WHERE schemaname NOT IN (\x27information_schema\x27, \x27pg_catalog\x27) ORDER BY pg_relation_size(schemaname||\x27.\x27||indexname) DESC LIMIT 20;"

/-- SQL text of get_index_usage in src/reports/storage_usage.py. -/
def indexUsageSQL : String :=
  "SELECT n.nspname AS schemaname, c.relname AS tablename, i.relname AS indexname, pg_size_pretty(pg_relation_size(i.oid)) AS size_pretty, pg_relation_size(i.oid) AS size_bytes, COALESCE(s.idx_scan, 0) AS idx_scan, COALESCE(s.idx_tup_read, 0) AS idx_tup_read, COALESCE(s.idx_tup_fetch, 0) AS idx_tup_fetch FROM pg_class c JOIN pg_index ix ON ix.indrelid = c.oid JOIN pg_class i ON i.oid = ix.indexrelid JOIN pg_namespace n ON n.oid = c.relnamespace LEFT JOIN pg_stat_user_indexes s ON s.indexrelid = i.oid WHERE n.nspname NOT IN (\x27pg_catalog\x27, \x27information_schema\x27) AND c.relkind IN (\x27r\x27,\x27p\x27) ORDER BY COALESCE(s.idx_scan, 0) DESC, pg_relation_size(i.oid) DESC LIMIT 50;"

/-- SQL text of src/logs/replication_delay.py. -/
def replicationDelaySQL : String :=
  "SELECT client_addr, state, write_lag, flush_lag, replay_lag FROM pg_stat_replication;"

/-- Probe of src/queries/long_queries.py: execute the statement and return
fetchall.  There is no exception handling in the probe, so a session or
statement failure propagates to the caller unchanged. -/
def get_long_queries (db : Db) : Except DbError (List Row) :=
  db longQueriesSQL

/-- Probe of src/queries/frequent_queries.py, same shape: no exception
handling, failures propagate. -/
def get_frequent_queries (db : Db) : Except DbError (List Row) :=
  db frequentQueriesSQL

/-- First sub probe of src/reports/cache_hit.py; fetchone is the head of the
result set. -/
def get_total_cache_hit_ratio (db : Db) : Except DbError (Option Row) :=
  match db totalCacheHitRatioSQL with
  | .error e => .error e
  | .ok rows => .ok rows.head?

/-- Second sub probe of src/reports/cache_hit.py. -/
def get_per_table_cache_hit_ratio (db : Db) : Except DbError (List Row) :=
  db perTableCacheHitRatioSQL

/-- Third sub probe of src/reports/cache_hit.py. -/
def get_index_heap_ratio (db : Db) : Except DbError (List Row) :=
  db indexHeapRatioSQL

/-- Cache section value: a mapping with the keys total, per_table and
index_heap_ratio. -/
structure CacheData where
  total : Option Row
  per_table : List Row
  index_heap_ratio : List Row
deriving DecidableEq, Repr

/-- Aggregator get_cache_hit_ratio of src/reports/cache_hit.py: runs the
three sub probes in order with no exception handling, so the first failure
propagates. -/
def get_cache_hit_ratio (db : Db) : Except DbError CacheData :=
  match get_total_cache_hit_ratio db with
  | .error e => .error e
  | .ok total =>
    match get_per_table_cache_hit_ratio db with
    | .error e => .error e
    | .ok per_table =>
      match get_index_heap_ratio db with
      | .error e => .error e
      | .ok ihr => .ok ⟨total, per_table, ihr⟩

/-- Storage section value: a mapping with the keys databases, tables,
indexes and index_usage. -/
structure StorageData where
  databases : List Row
  tables : List Row
  indexes : List Row
  index_usage : List Row
deriving DecidableEq, Repr

/-- Sub probe get_database_storage of src/reports/storage_usage.py. -/
def get_database_storage (db : Db) : Except DbError (List Row) :=
  db databaseStorageSQL

/-- Sub probe get_table_storage of src/reports/storage_usage.py. -/
def get_table_storage (db : Db) : Except DbError (List Row) :=
  db tableStorageSQL

/-- Sub probe get_index_storage of src/reports/storage_usage.py. -/
def get_index_storage (db : Db) : Except DbError (List Row) :=
  db indexStorageSQL

/-- Sub probe get_index_usage of src/reports/storage_usage.py. -/
def get_index_usage (db : Db) : Except DbError (List Row) :=
  db indexUsageSQL

/-- Aggregator get_storage_usage of src/reports/storage_usage.py: four sub
probes in order, no exception handling, first failure propagates. -/
def get_storage_usage (db : Db) : Except DbError StorageData :=
  match get_database_storage db with
  | .error e => .error e
  | .ok databases =>
    match get_table_storage db with
    | .error e => .error e
    | .ok tables =>
      match get_index_storage db with
      | .error e => .error e
      | .ok indexes =>
        match get_index_usage db with
        | .error e => .error e
        | .ok index_usage => .ok ⟨databases, tables, indexes, index_usage⟩

/-- Probe of src/logs/replication_delay.py: no exception handling, failures
propagate. -/
def get_replication_delay (db : Db) : Except DbError (List Row) :=
  db replicationDelaySQL

/-- Values held by the CPU and RAM section: the pretty printed database size
string, rounded megabyte figures, raw integer counters, or an SQL null
passed through (Python None in the dict). -/
inductive MetricVal where
  | str (s : String)
  | num (q : ℚ)
  | int (n : ℤ)
  | nullV
deriving DecidableEq, Repr

/-- Row returned by the first statement of get_postgres_server_metrics:
pg_size_pretty of the current database (never null) and the three memory
settings in kB, each nullable. -/
structure PgRow1 where
  db_size : String
  shared_buffers_kb : Option ℤ
  work_mem_kb : Option ℤ
  maintenance_work_mem_kb : Option ℤ
deriving DecidableEq, Repr

/-- Row returned by the second statement: count(*) (never null) and the
nullable sum of active states. -/
structure PgRow2 where
  active_connections : ℤ
  active_queries : Option ℤ
deriving DecidableEq, Repr

/-- Environment of one call of get_postgres_server_metrics: the joint
outcome of opening the session and running its two statements, with each
fetchone possibly empty. -/
structure PgEnv where
  query_result : Except DbError (Option PgRow1 × Option PgRow2)
deriving Repr

/-- Conversion of one nullable kB setting as coded: round(x / 1024, 2) when
the row exists and the field is truthy (non null and non zero), else the
plain int 0. -/
def kbToMbMetric (k : Option ℤ) : MetricVal :=
  match k with
  | some n => if n ≠ 0 then .num (round2 ((n : ℚ) / 1024)) else .int 0
  | none => .int 0

/-- Fallback record of get_postgres_server_metrics, returned from its except
branch after printing one warning. -/
def pgFallbackMetrics : List (String × MetricVal) :=
  [("postgres_db_size", .str "N/A"),
   ("postgres_shared_buffers_mb", .int 0),
   ("postgres_work_mem_mb", .int 0),
   ("postgres_maintenance_work_mem_mb", .int 0),
   ("postgres_active_connections", .int 0),
   ("postgres_active_queries", .int 0)]

/-- get_postgres_server_metrics of src/reports/cpu_ram.py: the whole body is
wrapped in try, and any database failure yields the fallback record, so the
function is total and always returns all six keys. -/
def get_postgres_server_metrics (env : PgEnv) : List (String × MetricVal) :=
  match env.query_result with
  | .error _ => pgFallbackMetrics
  | .ok (r1, r2) =>
      [("postgres_db_size", match r1 with | some r => .str r.db_size | none => .str "N/A"),
       ("postgres_shared_buffers_mb",
          match r1 with | some r => kbToMbMetric r.shared_buffers_kb | none => .int 0),
       ("postgres_work_mem_mb",
          match r1 with | some r => kbToMbMetric r.work_mem_kb | none => .int 0),
       ("postgres_maintenance_work_mem_mb",
          match r1 with | some r => kbToMbMetric r.maintenance_work_mem_kb | none => .int 0),
       ("postgres_active_connections",
          match r2 with | some r => .int r.active_connections | none => .int 0),
       ("postgres_active_queries",
          match r2 with
          | some r => (match r.active_queries with | some n => .int n | none => .nullV)
          | none => .int 0)]

/-- Environment of one call of get_cpu_ram_usage: the configured host, the
psutil sample an actual localhost run would take (abstracted to its value),
the remote SSH environment, and the database outcome of the server metrics
statements. -/
structure CpuRamEnv where
  host : String
  local_metrics : SysMetrics
  remote : RemoteEnv
  pg : PgEnv
deriving Repr

/-- System half of the CPU and RAM section as a key value list. -/
def sysMetricsAssoc (m : SysMetrics) : List (String × MetricVal) :=
  [("system_cpu_percent", .num m.system_cpu_percent),
   ("system_ram_percent", .num m.system_ram_percent),
   ("system_ram_total_gb", .num m.system_ram_total_gb),
   ("system_ram_used_gb", .num m.system_ram_used_gb),
   ("system_ram_available_gb", .num m.system_ram_available_gb)]

/-- get_cpu_ram_usage of src/reports/cpu_ram.py: pick the local or the
remote system strategy by the localhost decision, then merge with the
PostgreSQL server metrics.  The Python dict union of the two five and six
key dicts is list append, their key sets being disjoint. -/
def get_cpu_ram_usage (env : CpuRamEnv) : List (String × MetricVal) :=
  let system_metrics :=
    if _is_localhost_connection env.host then env.local_metrics
    else (_get_remote_system_metrics env.remote).1
  sysMetricsAssoc system_metrics ++ get_postgres_server_metrics env.pg

/-- Section values of the assembled report. -/
inductive ReportSection where
  | queryRows (rs : List Row)
  | cpuRam (m : List (String × MetricVal))
  | cache (c : CacheData)
  | storage (s : StorageData)
deriving DecidableEq, Repr

/-- The six fixed top level keys of the report, in assembly order. -/
def reportKeys : List String :=
  ["Long Queries", "Frequent Queries", "CPU/RAM Usage",
   "Cache Hit Ratio", "Storage Usage", "Replication Delay"]

/-- The eleven keys of the CPU and RAM section. -/
def cpuRamKeys : List String :=
  ["system_cpu_percent", "system_ram_percent", "system_ram_total_gb",
   "system_ram_used_gb", "system_ram_available_gb",
   "postgres_db_size", "postgres_shared_buffers_mb", "postgres_work_mem_mb",
   "postgres_maintenance_work_mem_mb", "postgres_active_connections",
   "postgres_active_queries"]

/-- main of src/main.py: fill the report dict section by section in the
fixed order, then hand it to the PDF generator.  There is no exception
handling anywhere on this path, so the first probe failure propagates out
and no report is assembled.  get_cpu_ram_usage, which catches internally,
is the only infallible step. -/
def main (db : Db) (env : CpuRamEnv) : Except DbError (List (String × ReportSection)) :=
  match get_long_queries db with
  | .error e => .error e
  | .ok lq =>
    match get_frequent_queries db with
    | .error e => .error e
    | .ok fq =>
      let cr := get_cpu_ram_usage env
      match get_cache_hit_ratio db with
      | .error e => .error e
      | .ok ch =>
        match get_storage_usage db with
        | .error e => .error e
        | .ok su =>
          match get_replication_delay db with
          | .error e => .error e
          | .ok rd =>
            .ok [("Long Queries", .queryRows lq),
                 ("Frequent Queries", .queryRows fq),
                 ("CPU/RAM Usage", .cpuRam cr),
                 ("Cache Hit Ratio", .cache ch),
                 ("Storage Usage", .storage su),
                 ("Replication Delay", .queryRows rd)]

/-- Database behaviour where every statement succeeds with no rows. -/
def dbEmptyOk : Db := fun _ => .ok []

/-- Database behaviour where only the long queries statement fails (for
example because pg_stat_statements is absent) and everything else succeeds
empty. -/
def dbLongFails : Db := fun sql =>
  if sql = longQueriesSQL then .error .queryError else .ok []

/-- Remote environment whose ssh.connect raises. -/
def remoteEnvConnectFail : RemoteEnv := ⟨false, "", []⟩

/-- Remote environment where the connection succeeds, the top output is
empty (the regex cannot match), and free -m parses normally. -/
def remoteEnvTopGarbage : RemoteEnv :=
  ⟨true, "",
   ["              total        used        free      shared  buff/cache   available",
    "Mem:          16000        4000       12000         100         200         300"]⟩

/-- Remote environment where the connection succeeds but the free -m output
is empty, so mem_lines[1] raises IndexError after the session was opened. -/
def remoteEnvMemShort : RemoteEnv :=
  ⟨true, "%Cpu(s):  1.7 us,  3.3 sy,  0.0 ni, 95.0 id,  0.0 wa,  0.0 hi,  0.0 si,  0.0 st", []⟩

/-- Remote environment of spec scenario 2: idle 95.0 and the memory row
Mem: 16000 4000 12000. -/
def remoteEnvScenario2 : RemoteEnv :=
  ⟨true, "%Cpu(s):  1.7 us,  3.3 sy,  0.0 ni, 95.0 id,  0.0 wa,  0.0 hi,  0.0 si,  0.0 st",
   ["              total        used        free      shared  buff/cache   available",
    "Mem:          16000        4000       12000         100         200         300"]⟩

/-- Metrics the probe computes over remoteEnvScenario2: cpu 5.0, ram 25.0,
and the MiB values over 1024 rounded half to even, 15.62, 3.91, 11.72. -/
def scenario2Metrics : SysMetrics := ⟨5, 25, 781 / 50, 391 / 100, 293 / 25⟩

/-- Metrics the probe computes over remoteEnvTopGarbage: cpu falls back to
0.0 with no exception while the memory figures are still computed. -/
def topGarbageMetrics : SysMetrics := ⟨0, 25, 781 / 50, 391 / 100, 293 / 25⟩

/-- PostgreSQL metrics environment whose session fails to open. -/
def pgEnvFail : PgEnv := ⟨.error .connectionError⟩

/-- PostgreSQL metrics environment where both statements succeed but return
no row. -/
def pgEnvEmptyOk : PgEnv := ⟨.ok (none, none)⟩

/-- A concrete CPU and RAM environment used by the closed instances below. -/
def cpuRamEnv0 : CpuRamEnv := ⟨"localhost", zeroSysMetrics, remoteEnvConnectFail, pgEnvFail⟩

/-- Report that main assembles over dbEmptyOk and cpuRamEnv0. -/
def okReport0 : List (String × ReportSection) :=
  [("Long Queries", .queryRows []),
   ("Frequent Queries", .queryRows []),
   ("CPU/RAM Usage", .cpuRam (get_cpu_ram_usage cpuRamEnv0)),
   ("Cache Hit Ratio", .cache ⟨none, [], []⟩),
   ("Storage Usage", .storage ⟨[], [], [], []⟩),
   ("Replication Delay", .queryRows [])]

/-- Helper: the counter coercion is the identity on Python ints. -/
theorem coerceCounter_int (n : ℤ) : coerceCounter (.int n) = n := by
  by_cases h : n = 0 <;> simp [coerceCounter, pyTruthy, pyIntCoerce, h]

/-- Helper: the higher is worse classifier on a finite float and finite
thresholds is the plain two threshold chain on rationals. -/
theorem statusWorse_eq (v w c : ℚ) :
    _get_status_indicator (.float (.val v)) (.val w) (.val c) =
      if c ≤ v then "CRITICAL" else if w ≤ v then "WARNING" else "GOOD" := by
  simp [_get_status_indicator, pyFloatCoerce, PyFloat.ge, PyFloat.le]

/-- Helper: the higher is better classifier on a finite float and finite
thresholds is the plain two threshold chain on rationals. -/
theorem statusBetter_eq (v w c : ℚ) :
    _status_higher_is_better (.float (.val v)) (.val w) (.val c) =
      if v ≤ c then "CRITICAL" else if v ≤ w then "WARNING" else "EXCELLENT" := by
  simp [_status_higher_is_better, pyFloatCoerce, PyFloat.le]

/-- Helper: evaluation of the remote probe body on spec scenario 2. -/
theorem remoteBody_scenario2 : remoteBody remoteEnvScenario2 = .ok scenario2Metrics := by
  unfold remoteBody
  rw [show remoteParse remoteEnvScenario2 = .ok (some (95, 0, 1), 16000, 4000, 12000) from rfl]
  norm_num [scenario2Metrics, idleValue, round2, roundHalfEven, SysMetrics.mk.injEq]

/-- Helper: evaluation of the remote probe body when the top output is
unparseable but free -m is fine. -/
theorem remoteBody_topGarbage : remoteBody remoteEnvTopGarbage = .ok topGarbageMetrics := by
  unfold remoteBody
  rw [show remoteParse remoteEnvTopGarbage = .ok (none, 16000, 4000, 12000) from rfl]
  norm_num [topGarbageMetrics, round2, roundHalfEven, SysMetrics.mk.injEq]

set_option maxRecDepth 8000 in
/-- C1 counterexample: with a valid configuration and a database where only
the long queries statement fails, main propagates the error and assembles no
report at all, contradicting the claim that the failed section is recorded
empty, the remaining probes execute and the six keys are still present. -/
theorem main_aborts_on_probe_failure_C1 :
    main dbLongFails cpuRamEnv0 = .error .queryError := rfl

/-- C1 amended: a failure of any of the five probes without exception
handling (long queries, frequent queries, cache hit ratio, storage usage,
replication delay) aborts the run: main succeeds exactly when all ten of
their statements succeed, and the CPU/RAM probe, whose server metrics half
absorbs its failure internally, never contributes a failure; whenever main
does assemble a report, it has exactly the six top level keys Long Queries,
Frequent Queries, CPU/RAM Usage, Cache Hit Ratio, Storage Usage and
Replication Delay in that order. -/
theorem report_has_six_keys_C1 :
    ∀ (db : Db) (env : CpuRamEnv),
      (∀ r : List (String × ReportSection),
        main db env = .ok r → r.map Prod.fst = reportKeys) ∧
      isOkE (main db env) =
        (isOkE (db longQueriesSQL) && isOkE (db frequentQueriesSQL) &&
         isOkE (db totalCacheHitRatioSQL) && isOkE (db perTableCacheHitRatioSQL) &&
         isOkE (db indexHeapRatioSQL) && isOkE (db databaseStorageSQL) &&
         isOkE (db tableStorageSQL) && isOkE (db indexStorageSQL) &&
         isOkE (db indexUsageSQL) && isOkE (db replicationDelaySQL)) := by
  intro db env
  constructor
  · intro r h
    unfold main at h
    repeat' split at h
    any_goals exact Except.noConfusion h
    simp only [Except.ok.injEq] at h
    subst h
    rfl
  · unfold main get_long_queries get_frequent_queries get_cache_hit_ratio
      get_total_cache_hit_ratio get_per_table_cache_hit_ratio get_index_heap_ratio
      get_storage_usage get_database_storage get_table_storage get_index_storage
      get_index_usage get_replication_delay
    rcases db longQueriesSQL with e | lq <;>
      rcases db frequentQueriesSQL with e | fq <;>
      rcases db totalCacheHitRatioSQL with e | ct <;>
      rcases db perTableCacheHitRatioSQL with e | cp <;>
      rcases db indexHeapRatioSQL with e | ci <;>
      rcases db databaseStorageSQL with e | sd <;>
      rcases db tableStorageSQL with e | st <;>
      rcases db indexStorageSQL with e | si <;>
      rcases db indexUsageSQL with e | su <;>
      rcases db replicationDelaySQL with e | rd <;>
      simp [isOkE]

/-- C1 witness: over an all succeeding database the assembled report has the
six keys. -/
theorem report_has_six_keys_C1_witness : okReport0.map Prod.fst = reportKeys :=
  (report_has_six_keys_C1 dbEmptyOk cpuRamEnv0).1 okReport0 rfl

/-- C2 counterexample: when the idle regex does not match the top output but
free -m parses, the probe returns a record that is not the zero record (ram
fields are computed, only cpu falls back to 0.0) and prints no warning,
contradicting the claim that a top parse failure yields the zero record and
one warning. -/
theorem remote_top_parse_absorbed_C2 :
    (_get_remote_system_metrics remoteEnvTopGarbage).1 ≠ zeroSysMetrics ∧
    (_get_remote_system_metrics remoteEnvTopGarbage).2.1 = 0 := by
  constructor
  · simp only [_get_remote_system_metrics, remoteBody_topGarbage, topGarbageMetrics,
      zeroSysMetrics, ne_eq, SysMetrics.mk.injEq]
    norm_num
  · simp [_get_remote_system_metrics, remoteBody_topGarbage]

/-- C2 amended: on every raised failure of the probe body (connection or
authentication failure, or a parse failure of the free -m output), the probe
returns the zero metrics record and exactly one warning, and never raises; a
regex miss on the top output alone raises nothing and is absorbed as cpu 0.0
with the memory metrics still computed. -/
theorem remote_failure_zero_record_C2 (env : RemoteEnv) (e : RemoteFailure)
    (h : remoteBody env = .error e) :
    _get_remote_system_metrics env = (zeroSysMetrics, 1, ⟨env.connect_ok, false⟩) := by
  simp [_get_remote_system_metrics, h]

/-- C2 witness: a failing ssh.connect yields the zero record and one
warning. -/
theorem remote_failure_zero_record_C2_witness :
    _get_remote_system_metrics remoteEnvConnectFail = (zeroSysMetrics, 1, ⟨false, false⟩) :=
  remote_failure_zero_record_C2 remoteEnvConnectFail .connectError rfl

/-- C3 counterexample: the host LOCALHOST is in the localhost set when
compared case insensitively as the claim states, yet the coded decision
selects the remote strategy for it, because the Python membership test is
case sensitive. -/
theorem localhost_case_sensitivity_C3 :
    isLocalhostSpecCaseInsensitive "LOCALHOST" = true ∧
    _is_localhost_connection "LOCALHOST" = false := by
  constructor <;> decide

/-- C3 amended: the local strategy is selected exactly when the host string
is, case sensitively, one of the four literals localhost, 127.0.0.1,
0.0.0.1 and ::1; in particular LOCALHOST selects the remote strategy. -/
theorem localhost_exact_membership_C3 (host : String) :
    (_is_localhost_connection host = true ↔
      (host = "localhost" ∨ host = "127.0.0.1" ∨ host = "0.0.0.1" ∨ host = "::1")) ∧
    _is_localhost_connection "LOCALHOST" = false := by
  constructor
  · simp [_is_localhost_connection, localhost_hosts]
  · decide

/-- C4: after a successful ssh.connect, a parse failure of the free -m
output (here an empty output, so mem_lines[1] raises IndexError) jumps to
the except branch and returns without ever calling ssh.close(), so the
opened session is not closed on that exit path. -/
theorem ssh_session_left_open_C4 :
    (_get_remote_system_metrics remoteEnvMemShort).2.2.opened = true ∧
    (_get_remote_system_metrics remoteEnvMemShort).2.2.closed = false := by
  have hb : remoteBody remoteEnvMemShort = .error .indexError := by
    unfold remoteBody
    rw [show remoteParse remoteEnvMemShort = .error .indexError from rfl]
  have hr : _get_remote_system_metrics remoteEnvMemShort = (zeroSysMetrics, 1, ⟨true, false⟩) := by
    unfold _get_remote_system_metrics
    rw [hb]
    rfl
  exact ⟨by rw [hr], by rw [hr]⟩

/-- C5 counterexample: on the inputs of spec scenario 2 the probe computes
system_ram_total_gb = 15.62 = 781/50, because round(15.625, 2) rounds half
to even, and not 15.63 as the claim states. -/
theorem remote_scenario_total_gb_C5 :
    (_get_remote_system_metrics remoteEnvScenario2).1.system_ram_total_gb = 781 / 50 ∧
    (781 / 50 : ℚ) ≠ 1563 / 100 := by
  constructor
  · simp [_get_remote_system_metrics, remoteBody_scenario2, scenario2Metrics]
  · norm_num

/-- C5 amended: on a top line with idle field 95.0 id and a free -m second
line Mem: 16000 4000 12000, the probe returns cpu_pct 5.0, ram_pct 25.0,
ram_total_gb 15.62, ram_used_gb 3.91 and ram_available_gb 11.72 (the MiB
values divided by 1024 and rounded half to even at two decimals). -/
theorem remote_scenario_metrics_C5 :
    (_get_remote_system_metrics remoteEnvScenario2).1 = scenario2Metrics ∧
    (_get_remote_system_metrics remoteEnvScenario2).2.1 = 0 := by
  constructor <;> simp [_get_remote_system_metrics, remoteBody_scenario2]

/-- C6 counterexample: on the string input 3.5 the coded index classifier,
which coerces with int() and falls back to 0, returns UNUSED, while the
float coercion with fallback 0.0 that the claim describes would give
LOW USE. -/
theorem index_status_coercion_C6 :
    _get_index_status (.str "3.5") (.int 100) (.int 50) = "UNUSED" ∧
    indexStatusSpecFloatCoercion (.str "3.5") (.int 100) (.int 50) = "LOW USE" ∧
    ("UNUSED" : String) ≠ "LOW USE" := by
  refine ⟨by decide, ?_, by decide⟩
  have h1 : pyFloatCoerce (.str "3.5") =
      some (.val ((digitsToNat ['3'] : ℚ) +
        (digitsToNat ['5'] : ℚ) / (10 ^ (['5'] : List Char).length))) := rfl
  have h2 : (digitsToNat ['3'] : ℚ) +
      (digitsToNat ['5'] : ℚ) / (10 ^ (['5'] : List Char).length) = 7 / 2 := by
    show ((3 : ℕ) : ℚ) + ((5 : ℕ) : ℚ) / (10 ^ (1 : ℕ)) = 7 / 2
    push_cast
    norm_num
  unfold indexStatusSpecFloatCoercion
  rw [h1]
  simp only [Option.getD_some, pyFloatCoerce]
  rw [h2]
  norm_num [PyFloat.eq, PyFloat.lt]

/-- C6 amended: every classifier function is total and returns one of its
defined labels for every input value (ints, any float including nan and the
infinities, strings, None); the three threshold classifiers coerce the value
with float() falling back to 0.0 on failure, while the index classifier
coerces each counter with int(x or 0) falling back to 0. -/
theorem classifiers_total_C6 (value scans tuples_read tuples_fetched : PyVal)
    (w c : PyFloat) :
    (_get_status_indicator value w c = "CRITICAL" ∨
      _get_status_indicator value w c = "WARNING" ∨
      _get_status_indicator value w c = "GOOD") ∧
    (_status_higher_is_better value w c = "CRITICAL" ∨
      _status_higher_is_better value w c = "WARNING" ∨
      _status_higher_is_better value w c = "EXCELLENT") ∧
    (_status_count value w c = "CRITICAL" ∨
      _status_count value w c = "WARNING" ∨
      _status_count value w c = "GOOD") ∧
    (_get_index_status scans tuples_read tuples_fetched = "UNUSED" ∨
      _get_index_status scans tuples_read tuples_fetched = "LOW USE" ∨
      _get_index_status scans tuples_read tuples_fetched = "INEFFICIENT" ∨
      _get_index_status scans tuples_read tuples_fetched = "ACTIVE") ∧
    _get_status_indicator value w c =
      _get_status_indicator (.float ((pyFloatCoerce value).getD (.val 0))) w c ∧
    _get_index_status scans tuples_read tuples_fetched =
      _get_index_status (.int (coerceCounter scans)) (.int (coerceCounter tuples_read))
        (.int (coerceCounter tuples_fetched)) := by
  refine ⟨?_, ?_, ?_, ?_, rfl, ?_⟩
  · simp only [_get_status_indicator]
    split_ifs <;> simp
  · simp only [_status_higher_is_better]
    split_ifs <;> simp
  · simp only [_status_count]
    split_ifs <;> simp
  · simp only [_get_index_status]
    split_ifs <;> simp
  · simp [_get_index_status, coerceCounter_int]

/-- C7: at the coded thresholds (warning 80, critical 90 for higher is
worse; warn 90, crit 80 for higher is better), the percentage classifiers
implement exactly the stated bands, and cache 87.3 is WARNING, 79.9 is
CRITICAL, 95.0 is EXCELLENT. -/
theorem classifier_thresholds_C7 (v : ℚ) :
    (_get_status_indicator (.float (.val v)) (.val 80) (.val 90) = "CRITICAL" ↔ 90 ≤ v) ∧
    (_get_status_indicator (.float (.val v)) (.val 80) (.val 90) = "WARNING" ↔
      80 ≤ v ∧ v < 90) ∧
    (_get_status_indicator (.float (.val v)) (.val 80) (.val 90) = "GOOD" ↔ v < 80) ∧
    (_status_higher_is_better (.float (.val v)) (.val 90) (.val 80) = "CRITICAL" ↔ v ≤ 80) ∧
    (_status_higher_is_better (.float (.val v)) (.val 90) (.val 80) = "WARNING" ↔
      80 < v ∧ v ≤ 90) ∧
    (_status_higher_is_better (.float (.val v)) (.val 90) (.val 80) = "EXCELLENT" ↔ 90 < v) ∧
    _status_higher_is_better (.float (.val (873 / 10))) (.val 90) (.val 80) = "WARNING" ∧
    _status_higher_is_better (.float (.val (799 / 10))) (.val 90) (.val 80) = "CRITICAL" ∧
    _status_higher_is_better (.float (.val 95)) (.val 90) (.val 80) = "EXCELLENT" := by
  refine ⟨?_, ?_, ?_, ?_, ?_, ?_, ?_, ?_, ?_⟩
  · rw [statusWorse_eq]
    by_cases h9 : (90 : ℚ) ≤ v <;> by_cases h8 : (80 : ℚ) ≤ v <;>
      simp [h9, h8]
  · rw [statusWorse_eq]
    by_cases h9 : (90 : ℚ) ≤ v <;> by_cases h8 : (80 : ℚ) ≤ v <;>
      simp [h9, h8] <;> linarith
  · rw [statusWorse_eq]
    by_cases h9 : (90 : ℚ) ≤ v <;> by_cases h8 : (80 : ℚ) ≤ v <;>
      simp [h9, h8] <;> linarith
  · rw [statusBetter_eq]
    by_cases hc : v ≤ (80 : ℚ) <;> by_cases hw : v ≤ (90 : ℚ) <;>
      simp [hc, hw]
  · rw [statusBetter_eq]
    by_cases hc : v ≤ (80 : ℚ) <;> by_cases hw : v ≤ (90 : ℚ) <;>
      simp [hc, hw] <;> linarith
  · rw [statusBetter_eq]
    by_cases hc : v ≤ (80 : ℚ) <;> by_cases hw : v ≤ (90 : ℚ) <;>
      simp [hc, hw] <;> linarith
  · rw [statusBetter_eq]
    norm_num
  · rw [statusBetter_eq]
    norm_num
  · rw [statusBetter_eq]
    norm_num

/-- C8: for non negative integer counters the index classifier implements
the stated rule chain, and the four listed examples hold. -/
theorem index_status_rule_C8 (s r f : ℕ) :
    _get_index_status (.int s) (.int r) (.int f) =
      (if s = 0 then "UNUSED"
       else if s < 10 then "LOW USE"
       else if (f : ℚ) / max (r : ℚ) 1 < 1 / 10 then "INEFFICIENT"
       else "ACTIVE") ∧
    _get_index_status (.int 0) (.int r) (.int f) = "UNUSED" ∧
    _get_index_status (.int 5) (.int 100) (.int 50) = "LOW USE" ∧
    _get_index_status (.int 100) (.int 1000) (.int 50) = "INEFFICIENT" ∧
    _get_index_status (.int 100) (.int 1000) (.int 500) = "ACTIVE" := by
  refine ⟨?_, ?_, ?_, ?_, ?_⟩
  · unfold _get_index_status
    rw [coerceCounter_int, coerceCounter_int, coerceCounter_int]
    have hmax : ((max (r : ℤ) 1 : ℤ) : ℚ) = max (r : ℚ) 1 := by
      push_cast
      rfl
    by_cases hs : s = 0
    · simp [hs]
    · by_cases h10 : s < 10
      · simp [hs, h10]
      · simp [hs, h10, hmax]
  · norm_num [_get_index_status, coerceCounter_int]
  · norm_num [_get_index_status, coerceCounter_int]
  · norm_num [_get_index_status, coerceCounter_int, max_def]
  · norm_num [_get_index_status, coerceCounter_int, max_def]

/-- C9: the PostgreSQL server metrics half never raises and on any database
failure returns the fallback record with db size N/A and the five numeric
fields 0, and the merged CPU/RAM section always carries exactly its eleven
keys. -/
theorem pg_metrics_and_keys_C9 :
    (∀ (env : PgEnv) (e : DbError), env.query_result = .error e →
        get_postgres_server_metrics env = pgFallbackMetrics) ∧
    (∀ env : CpuRamEnv, (get_cpu_ram_usage env).map Prod.fst = cpuRamKeys) := by
  constructor
  · intro env e h
    unfold get_postgres_server_metrics
    rw [h]
  · intro env
    unfold get_cpu_ram_usage
    rcases hq : env.pg.query_result with e | ⟨r1, r2⟩ <;>
      simp [get_postgres_server_metrics, hq, pgFallbackMetrics, sysMetricsAssoc, cpuRamKeys]

/-- C9 witness: a failed session yields the fallback record. -/
theorem pg_metrics_and_keys_C9_witness :
    get_postgres_server_metrics pgEnvFail = pgFallbackMetrics :=
  pg_metrics_and_keys_C9.1 pgEnvFail .connectionError rfl

/-- C10: a nan value falls through every threshold comparison, so the higher
is worse classifier returns GOOD and the higher is better classifier returns
EXCELLENT, for every choice of thresholds. -/
theorem nan_most_favorable_C10 (warn crit : PyFloat) :
    _get_status_indicator (.float .nan) warn crit = "GOOD" ∧
    _status_higher_is_better (.float .nan) warn crit = "EXCELLENT" := by
  cases warn <;> cases crit <;> exact ⟨rfl, rfl⟩

end DBMonitor
